import Mathlib

/- Verification of the Smart_Surveillance repository.

   The repository content under src/ is browser-side JavaScript
   (dashboard.js and camera-view.js) plus a README.  The alert
   lifecycle coordinator (alert classifier, dedup window, alert
   store, acknowledgement coordinator) is described only by the
   specification; its implementation is not part of the provided
   source, so those components are modelled from the spec and
   marked as such.  The dashboard and camera-view code is embedded
   directly from the JavaScript source. -/

namespace SmartSurveillance

/-! ## Alert lifecycle coordinator (modelled from the spec) -/

/-- Modelled from the spec: severity tiers LOW/MEDIUM/HIGH (§3); the
classifier implementation is not part of the provided source. -/
inductive Severity where
  | LOW
  | MEDIUM
  | HIGH
deriving DecidableEq

/-- Modelled from the spec: alert status enum PENDING/ACKNOWLEDGED (§3). -/
inductive Status where
  | PENDING
  | ACKNOWLEDGED
deriving DecidableEq

/-- Modelled from the spec: the durable Alert record (§3).  Confidence
is a rational in place of the spec's float in the unit interval;
timestamps are integers. -/
structure Alert where
  id : Nat
  camera_id : Nat
  camera_name : String
  object_class : String
  confidence : Rat
  severity : Severity
  location : String
  snapshot_reference : String
  created_at : Int
  status : Status
  acknowledged_by : Option String
  acknowledged_at : Option Int
deriving DecidableEq

/-- Modelled from the spec: the raw detection event (§3). -/
structure Detection where
  camera_id : Nat
  object_class : String
  confidence : Rat
  captured_at : Int
  frame_reference : String
deriving DecidableEq

/-- Modelled from the spec: the fields handed to the Alert Store's
create operation (§4.3); id, created_at and status are assigned by
the store itself. -/
structure AlertFields where
  camera_id : Nat
  camera_name : String
  object_class : String
  confidence : Rat
  severity : Severity
  location : String
  snapshot_reference : String
deriving DecidableEq

/-- Modelled from the spec: the Alert Store (§4.3), an append-only list
of alerts (creation order, oldest first) together with the next
monotonically increasing id; the store implementation is not part of
the provided source. -/
structure AlertStore where
  alerts : List Alert
  nextId : Nat
deriving DecidableEq

/-- Modelled from the spec: the empty Alert Store. -/
def emptyStore : AlertStore := { alerts := [], nextId := 0 }

/-- Modelled from the spec: `create(alert_fields)` of the Alert Store
(§4.3): assigns a unique monotonically increasing id, sets
status=PENDING, created_at=now, persists, returns the full record. -/
def AlertStore.create (s : AlertStore) (f : AlertFields) (now : Int) : AlertStore × Alert :=
  let a : Alert :=
    { id := s.nextId, camera_id := f.camera_id, camera_name := f.camera_name,
      object_class := f.object_class, confidence := f.confidence,
      severity := f.severity, location := f.location,
      snapshot_reference := f.snapshot_reference, created_at := now,
      status := Status.PENDING, acknowledged_by := none, acknowledged_at := none }
  ({ alerts := s.alerts ++ [a], nextId := s.nextId + 1 }, a)

/-- Modelled from the spec: `get(id) -> Alert | NotFound` of the Alert
Store (§4.3), as an Option-valued lookup. -/
def AlertStore.find (s : AlertStore) (i : Nat) : Option Alert :=
  s.alerts.find? (fun a => decide (a.id = i))

/-- Modelled from the spec: the result of `acknowledge(id, admin_name,
now)` (§4.3): success with the committed record, AlreadyAcknowledged
carrying the original acknowledger and timestamp, or NotFound. -/
inductive AckResult where
  | acknowledged (a : Alert)
  | alreadyAcknowledged (who : Option String) (whenAck : Option Int)
  | notFound
deriving DecidableEq

/-- The acknowledged copy of an alert: status becomes ACKNOWLEDGED and
the acknowledger name and timestamp are recorded. -/
def ackUpdate (a : Alert) (admin_name : String) (now : Int) : Alert :=
  { a with status := Status.ACKNOWLEDGED,
           acknowledged_by := some admin_name,
           acknowledged_at := some now }

/-- Modelled from the spec: `acknowledge(id, admin_name, now)` of the
Alert Store / Acknowledgement Coordinator (§4.3, §4.5): an unknown id
yields NotFound; an already-ACKNOWLEDGED alert yields
AlreadyAcknowledged with the original acknowledger preserved; a
PENDING alert transitions to ACKNOWLEDGED exactly once. -/
def AlertStore.acknowledge (s : AlertStore) (i : Nat) (admin_name : String) (now : Int) :
    AlertStore × AckResult :=
  match s.find i with
  | none => (s, AckResult.notFound)
  | some a =>
    match a.status with
    | Status.ACKNOWLEDGED => (s, AckResult.alreadyAcknowledged a.acknowledged_by a.acknowledged_at)
    | Status.PENDING =>
      let a2 := ackUpdate a admin_name now
      ({ s with alerts := s.alerts.map (fun x => if x.id = i then a2 else x) },
       AckResult.acknowledged a2)

/-- Modelled from the spec: `listPending()` of the Alert Store (§4.3),
the PENDING alerts newest first (creation order reversed). -/
def AlertStore.listPending (s : AlertStore) : List Alert :=
  (s.alerts.filter (fun a => decide (a.status = Status.PENDING))).reverse

/-- Modelled from the spec: the Dedup/Coalescing Window (§4.2), the
last-emission timestamp per (camera_id, object_class) key together
with the configured cooldown interval. -/
structure DedupWindow where
  cooldown : Int
  entries : List ((Nat × String) × Int)
deriving DecidableEq

/-- Modelled from the spec: the last-emission timestamp recorded for a
(camera_id, object_class) pair, if any (§4.2). -/
def DedupWindow.lookup (w : DedupWindow) (cid : Nat) (cls : String) : Option Int :=
  (w.entries.find? (fun e => decide (e.1 = (cid, cls)))).map (fun e => e.2)

/-- Modelled from the spec: `shouldEmit(camera_id, object_class, now)`
(§4.2): true iff no prior record exists or now - last_emitted_at is at
least the cooldown interval. -/
def DedupWindow.shouldEmit (w : DedupWindow) (cid : Nat) (cls : String) (now : Int) : Bool :=
  match w.lookup cid cls with
  | none => true
  | some t => decide (w.cooldown ≤ now - t)

/-- Modelled from the spec: `record(camera_id, object_class, now)`
(§4.2), storing now as the new last-emission time for the pair. -/
def DedupWindow.record (w : DedupWindow) (cid : Nat) (cls : String) (now : Int) : DedupWindow :=
  if (w.lookup cid cls).isSome then
    { w with entries := w.entries.map (fun e => if e.1 = (cid, cls) then (e.1, now) else e) }
  else
    { w with entries := w.entries ++ [((cid, cls), now)] }

/-- Modelled from the spec: the classifier configuration (§4.1):
minimum confidence threshold, high-confidence escalation threshold and
the per-class base severity. -/
structure ClassifierConfig where
  minConfidence : Rat
  highConfidence : Rat
  baseSeverity : String → Severity

/-- Modelled from the spec: escalation by one tier, capped at HIGH (§4.1). -/
def escalate : Severity → Severity
  | Severity.LOW => Severity.MEDIUM
  | Severity.MEDIUM => Severity.HIGH
  | Severity.HIGH => Severity.HIGH

/-- Modelled from the spec: the result of `classify(detection)` (§4.1). -/
structure ClassificationResult where
  severity : Severity
  accept : Bool
deriving DecidableEq

/-- Modelled from the spec: `classify(detection)` (§4.1): confidence
below the minimum threshold is rejected; otherwise the per-class base
severity, escalated by one tier when confidence exceeds the
high-confidence threshold. -/
def classify (cfg : ClassifierConfig) (d : Detection) : ClassificationResult :=
  if d.confidence < cfg.minConfidence then
    { severity := cfg.baseSeverity d.object_class, accept := false }
  else
    let base := cfg.baseSeverity d.object_class
    { severity := if cfg.highConfidence < d.confidence then escalate base else base,
      accept := true }

/-- Modelled from the spec: the ingest coordinator state (§2): the
classifier configuration, the Alert Store, the Dedup Window and the
read-only camera metadata (name, location) consulted at alert-creation
time. -/
structure Coordinator where
  cfg : ClassifierConfig
  store : AlertStore
  dedup : DedupWindow
  cameras : Nat → String × String

/-- Modelled from the spec: the alert fields denormalized from a
detection at creation time (§3). -/
def mkFields (p : Coordinator) (d : Detection) : AlertFields :=
  { camera_id := d.camera_id, camera_name := (p.cameras d.camera_id).1,
    object_class := d.object_class, confidence := d.confidence,
    severity := (classify p.cfg d).severity, location := (p.cameras d.camera_id).2,
    snapshot_reference := d.frame_reference }

/-- Modelled from the spec: the ingest data flow (§2, §4.1, §4.2,
§4.3): classify, reject below-threshold detections without touching
any state, consult the dedup window, and on emit atomically record the
emission time and persist a new PENDING alert. -/
def processDetection (p : Coordinator) (d : Detection) : Coordinator × Option Alert :=
  if (classify p.cfg d).accept then
    if p.dedup.shouldEmit d.camera_id d.object_class d.captured_at then
      let r := p.store.create (mkFields p d) d.captured_at
      ({ p with store := r.1,
                dedup := p.dedup.record d.camera_id d.object_class d.captured_at },
       some r.2)
    else (p, none)
  else (p, none)

/-- Modelled from the spec: sequential ingest of a list of detections,
returning the final coordinator state and the alerts created. -/
def processAll (p : Coordinator) (ds : List Detection) : Coordinator × List Alert :=
  match ds with
  | [] => (p, [])
  | d :: rest =>
    let r := processDetection p d
    let r2 := processAll r.1 rest
    (r2.1, r.2.toList ++ r2.2)

/-! ### C3: rejected detections leave all state untouched -/

/-- C3: for every detection whose confidence is below the configured
minimum threshold, classify returns accept=false, processing creates
no alert, and the coordinator state (store and dedup window alike) is
left completely unchanged. -/
theorem classify_reject_no_state_change (p : Coordinator) (d : Detection)
    (h : d.confidence < p.cfg.minConfidence) :
    (classify p.cfg d).accept = false ∧ processDetection p d = (p, none) := by
  have hacc : (classify p.cfg d).accept = false := by
    simp [classify, h]
  refine ⟨hacc, ?_⟩
  simp [processDetection, hacc]

/-- Concrete classifier configuration used by witnesses: minimum
confidence 1/2, high-confidence threshold 9/10, firearms HIGH and
everything else MEDIUM. -/
def wCfg : ClassifierConfig :=
  { minConfidence := mkRat 1 2,
    highConfidence := mkRat 9 10,
    baseSeverity := fun cls => if cls = "gun" then Severity.HIGH else Severity.MEDIUM }

/-- Concrete coordinator used by witnesses: empty store and dedup
window with a 30 second cooldown. -/
def wCoord : Coordinator :=
  { cfg := wCfg,
    store := emptyStore,
    dedup := { cooldown := 30, entries := [] },
    cameras := fun _ => ("Front Gate", "Lobby") }

/-- Concrete low-confidence detection used by the C3 witness. -/
def wLowDetection : Detection :=
  { camera_id := 1, object_class := "knife", confidence := mkRat 3 10,
    captured_at := 100, frame_reference := "frame_1.jpg" }

/-- Witness for C3 at a concrete rejected detection. -/
theorem classify_reject_no_state_change_witness :
    wLowDetection.confidence < wCoord.cfg.minConfidence ∧
    ((classify wCoord.cfg wLowDetection).accept = false ∧
      processDetection wCoord wLowDetection = (wCoord, none)) := by
  refine ⟨by decide, ?_⟩
  exact classify_reject_no_state_change wCoord wLowDetection (by decide)

/-! ### Acknowledgement: helper lemmas -/

/-- Modelled from the spec: a serialization of a batch of acknowledge
calls on one alert id (§4.5); under the spec's atomicity requirement a
set of simultaneous calls behaves as some sequential order of the
individual calls. -/
def ackAll (s : AlertStore) (i : Nat) (calls : List (String × Int)) :
    AlertStore × List AckResult :=
  match calls with
  | [] => (s, [])
  | c :: rest =>
    let r := s.acknowledge i c.1 c.2
    let r2 := ackAll r.1 i rest
    (r2.1, r.2 :: r2.2)

theorem countP_replicate_true {α : Type} (p : α → Bool) (x : α) (h : p x = true) :
    ∀ n : Nat, (List.replicate n x).countP p = n := by
  intro n
  induction n with
  | zero => simp
  | succ k ih => simp [List.replicate_succ, List.countP_cons, h, ih]

theorem find?_map_update (l : List Alert) (i : Nat) (a a2 : Alert)
    (hf : l.find? (fun x => decide (x.id = i)) = some a) (hid : a2.id = i) :
    (l.map (fun x => if x.id = i then a2 else x)).find? (fun x => decide (x.id = i)) =
      some a2 := by
  induction l with
  | nil => simp at hf
  | cons x xs ih =>
    by_cases hx : x.id = i
    · simp only [List.map_cons, if_pos hx]
      exact List.find?_cons_of_pos _ (by simp [hid])
    · simp only [List.map_cons, if_neg hx]
      rw [List.find?_cons_of_neg _ (by simp [hx])]
      rw [List.find?_cons_of_neg _ (by simp [hx])] at hf
      exact ih hf

theorem acknowledge_pending (s : AlertStore) (i : Nat) (a : Alert)
    (admin_name : String) (now : Int)
    (hf : s.find i = some a) (hp : a.status = Status.PENDING) :
    s.acknowledge i admin_name now =
      ({ s with alerts := s.alerts.map (fun x => if x.id = i then ackUpdate a admin_name now else x) },
       AckResult.acknowledged (ackUpdate a admin_name now)) := by
  simp [AlertStore.acknowledge, hf, hp]

theorem acknowledge_done (s : AlertStore) (i : Nat) (a : Alert)
    (admin_name : String) (now : Int)
    (hf : s.find i = some a) (ha : a.status = Status.ACKNOWLEDGED) :
    s.acknowledge i admin_name now =
      (s, AckResult.alreadyAcknowledged a.acknowledged_by a.acknowledged_at) := by
  simp [AlertStore.acknowledge, hf, ha]

theorem find_of_find (s : AlertStore) (i : Nat) (a : Alert)
    (hf : s.find i = some a) : a.id = i := by
  have := List.find?_some hf
  simpa using this

theorem find_after_ack (s : AlertStore) (i : Nat) (a : Alert)
    (admin_name : String) (now : Int)
    (hf : s.find i = some a) (hp : a.status = Status.PENDING) :
    (s.acknowledge i admin_name now).1.find i = some (ackUpdate a admin_name now) := by
  rw [acknowledge_pending s i a admin_name now hf hp]
  exact find?_map_update s.alerts i a (ackUpdate a admin_name now) hf
    (by simp [ackUpdate, find_of_find s i a hf])

theorem ackAll_done (s : AlertStore) (i : Nat) (a : Alert)
    (hf : s.find i = some a) (ha : a.status = Status.ACKNOWLEDGED) :
    ∀ calls : List (String × Int),
      ackAll s i calls =
        (s, calls.map (fun _ =>
          AckResult.alreadyAcknowledged a.acknowledged_by a.acknowledged_at)) := by
  intro calls
  induction calls with
  | nil => simp [ackAll]
  | cons c rest ih =>
    simp only [ackAll, acknowledge_done s i a c.1 c.2 hf ha, ih, List.map_cons]

/-! ### C1: acknowledgement is idempotent in outcome -/

/-- C1: the first acknowledge call on a PENDING alert transitions it to
ACKNOWLEDGED and returns success, and every subsequent acknowledge
call on that same id (any serialization of later calls) returns
AlreadyAcknowledged carrying the original acknowledger's name and
timestamp — never a second success, never NotFound. -/
theorem acknowledge_idempotent_outcome (s : AlertStore) (i : Nat) (a : Alert)
    (admin_name : String) (now : Int)
    (hf : s.find i = some a) (hp : a.status = Status.PENDING) :
    (s.acknowledge i admin_name now).2 =
        AckResult.acknowledged (ackUpdate a admin_name now) ∧
    (ackUpdate a admin_name now).status = Status.ACKNOWLEDGED ∧
    ∀ calls : List (String × Int),
      (ackAll (s.acknowledge i admin_name now).1 i calls).2 =
        calls.map (fun _ =>
          AckResult.alreadyAcknowledged (some admin_name) (some now)) := by
  refine ⟨by rw [acknowledge_pending s i a admin_name now hf hp], rfl, ?_⟩
  intro calls
  have hfind := find_after_ack s i a admin_name now hf hp
  have := ackAll_done (s.acknowledge i admin_name now).1 i
    (ackUpdate a admin_name now) hfind rfl calls
  simp [this, ackUpdate]

/-- Concrete alert fields used by acknowledgement witnesses. -/
def wAckFields : AlertFields :=
  { camera_id := 1, camera_name := "Front Gate", object_class := "gun",
    confidence := mkRat 95 100, severity := Severity.HIGH,
    location := "Lobby", snapshot_reference := "frame_42.jpg" }

/-- Concrete one-alert store used by acknowledgement witnesses. -/
def wAckStore : AlertStore := (emptyStore.create wAckFields 5).1

/-- The single pending alert inside `wAckStore`. -/
def wAckAlert : Alert := (emptyStore.create wAckFields 5).2

/-- Witness for C1: acknowledging alert 0 of the concrete store as
"Alice", then twice more as "Bob" and "Carol", yields one success and
then AlreadyAcknowledged results naming Alice. -/
theorem acknowledge_idempotent_outcome_witness :
    wAckStore.find 0 = some wAckAlert ∧
    wAckAlert.status = Status.PENDING ∧
    (wAckStore.acknowledge 0 "Alice" 10).2 =
        AckResult.acknowledged (ackUpdate wAckAlert "Alice" 10) ∧
    (ackAll (wAckStore.acknowledge 0 "Alice" 10).1 0 [("Bob", 11), ("Carol", 12)]).2 =
        [AckResult.alreadyAcknowledged (some "Alice") (some 10),
         AckResult.alreadyAcknowledged (some "Alice") (some 10)] := by
  have h := acknowledge_idempotent_outcome wAckStore 0 wAckAlert "Alice" 10
    (by decide) (by decide)
  exact ⟨by decide, by decide, h.1, h.2.2 [("Bob", 11), ("Carol", 12)]⟩

/-! ### C5: concurrent acknowledge race -/

/-- True exactly on a success result. -/
def AckResult.isSuccess : AckResult → Bool
  | AckResult.acknowledged _ => true
  | _ => false

/-- C5: any serialization of N simultaneous acknowledge calls on one
PENDING alert yields exactly 1 success, and the other N−1 calls all
receive AlreadyAcknowledged referencing the winning caller's name and
timestamp; no acknowledgement is lost and no second call silently
succeeds. -/
theorem concurrent_ack_race (s : AlertStore) (i : Nat) (a : Alert)
    (c0 : String × Int) (calls : List (String × Int))
    (hf : s.find i = some a) (hp : a.status = Status.PENDING) :
    (ackAll s i (c0 :: calls)).2 =
        AckResult.acknowledged (ackUpdate a c0.1 c0.2) ::
          calls.map (fun _ => AckResult.alreadyAcknowledged (some c0.1) (some c0.2)) ∧
    ((ackAll s i (c0 :: calls)).2.countP AckResult.isSuccess = 1) ∧
    ((ackAll s i (c0 :: calls)).2.countP
        (fun r => decide (r = AckResult.alreadyAcknowledged (some c0.1) (some c0.2))) =
      (c0 :: calls).length - 1) := by
  have hpend := acknowledge_pending s i a c0.1 c0.2 hf hp
  have hfind := find_after_ack s i a c0.1 c0.2 hf hp
  have hdone := ackAll_done (s.acknowledge i c0.1 c0.2).1 i
    (ackUpdate a c0.1 c0.2) hfind rfl calls
  have hlist : (ackAll s i (c0 :: calls)).2 =
      AckResult.acknowledged (ackUpdate a c0.1 c0.2) ::
        calls.map (fun _ => AckResult.alreadyAcknowledged (some c0.1) (some c0.2)) := by
    show (s.acknowledge i c0.1 c0.2).2 ::
        (ackAll (s.acknowledge i c0.1 c0.2).1 i calls).2 = _
    rw [hdone, hpend]
    simp [ackUpdate]
  refine ⟨hlist, ?_, ?_⟩
  · rw [hlist]
    simp [List.countP_cons, List.countP_map, Function.comp, AckResult.isSuccess]
  · rw [hlist]
    simp [List.countP_cons, List.countP_map, Function.comp]
    exact countP_replicate_true _ _ (by simp) calls.length

/-- Witness for C5: three racing acknowledge calls on the concrete
one-alert store yield one success and two AlreadyAcknowledged results
naming the winner. -/
theorem concurrent_ack_race_witness :
    wAckStore.find 0 = some wAckAlert ∧
    wAckAlert.status = Status.PENDING ∧
    (ackAll wAckStore 0 [("Alice", 10), ("Bob", 11), ("Carol", 12)]).2 =
        AckResult.acknowledged (ackUpdate wAckAlert "Alice" 10) ::
          [("Bob", 11), ("Carol", 12)].map
            (fun _ => AckResult.alreadyAcknowledged (some "Alice") (some 10)) ∧
    (ackAll wAckStore 0 [("Alice", 10), ("Bob", 11), ("Carol", 12)]).2.countP
        AckResult.isSuccess = 1 := by
  have h := concurrent_ack_race wAckStore 0 wAckAlert ("Alice", 10)
    [("Bob", 11), ("Carol", 12)] (by decide) (by decide)
  exact ⟨by decide, by decide, h.1, h.2.1⟩

/-! ### Dedup window: helper lemmas -/

theorem find?_entries_update (l : List ((Nat × String) × Int)) (k : Nat × String) (now : Int)
    (h : (l.find? (fun e => decide (e.1 = k))).isSome = true) :
    (l.map (fun e => if e.1 = k then (e.1, now) else e)).find? (fun e => decide (e.1 = k)) =
      some (k, now) := by
  induction l with
  | nil => simp at h
  | cons x xs ih =>
    by_cases hx : x.1 = k
    · simp only [List.map_cons, if_pos hx]
      rw [List.find?_cons_of_pos _ (by simp [hx])]
      simp [hx]
    · simp only [List.map_cons, if_neg hx]
      rw [List.find?_cons_of_neg _ (by simp [hx])]
      rw [List.find?_cons_of_neg _ (by simp [hx])] at h
      exact ih h

theorem find?_append_of_none {α : Type} (l : List α) (p : α → Bool) (x : α)
    (h : l.find? p = none) (hx : p x = true) :
    (l ++ [x]).find? p = some x := by
  induction l with
  | nil => simpa [List.find?] using List.find?_cons_of_pos ([] : List α) hx
  | cons y ys ih =>
    have hy : p y = false := by
      cases hpy : p y with
      | false => rfl
      | true => rw [List.find?_cons_of_pos _ hpy] at h; simp at h
    rw [List.find?_cons_of_neg _ (by simp [hy])] at h
    rw [List.cons_append, List.find?_cons_of_neg _ (by simp [hy])]
    exact ih h

theorem lookup_record_self (w : DedupWindow) (cid : Nat) (cls : String) (now : Int) :
    (w.record cid cls now).lookup cid cls = some now := by
  unfold DedupWindow.record
  by_cases h : (w.lookup cid cls).isSome
  · rw [if_pos h]
    have h2 : (w.entries.find? (fun e => decide (e.1 = (cid, cls)))).isSome = true := by
      unfold DedupWindow.lookup at h
      simpa using h
    unfold DedupWindow.lookup
    rw [find?_entries_update w.entries (cid, cls) now h2]
    rfl
  · rw [if_neg h]
    unfold DedupWindow.lookup at h ⊢
    have hnone : w.entries.find? (fun e => decide (e.1 = (cid, cls))) = none := by
      cases hfind : w.entries.find? (fun e => decide (e.1 = (cid, cls))) with
      | none => rfl
      | some e => rw [hfind] at h; simp at h
    rw [find?_append_of_none _ _ _ hnone (by simp)]
    rfl

theorem record_cooldown (w : DedupWindow) (cid : Nat) (cls : String) (now : Int) :
    (w.record cid cls now).cooldown = w.cooldown := by
  unfold DedupWindow.record
  split <;> rfl

theorem shouldEmit_false_of_within (w : DedupWindow) (cid : Nat) (cls : String)
    (now t0 : Int) (hl : w.lookup cid cls = some t0) (hw : now - t0 < w.cooldown) :
    w.shouldEmit cid cls now = false := by
  unfold DedupWindow.shouldEmit
  rw [hl]
  simp only [decide_eq_false_iff_not, not_le]
  exact hw

theorem processDetection_suppressed (p : Coordinator) (d : Detection) (t0 : Int)
    (hl : p.dedup.lookup d.camera_id d.object_class = some t0)
    (hw : d.captured_at - t0 < p.dedup.cooldown) :
    processDetection p d = (p, none) := by
  have hse := shouldEmit_false_of_within p.dedup d.camera_id d.object_class
    d.captured_at t0 hl hw
  simp [processDetection, hse]

theorem processAll_suppressed (cid : Nat) (cls : String) (t0 : Int) :
    ∀ (ds : List Detection) (p : Coordinator),
      p.dedup.lookup cid cls = some t0 →
      (∀ d ∈ ds, d.camera_id = cid ∧ d.object_class = cls ∧
          d.captured_at - t0 < p.dedup.cooldown) →
      processAll p ds = (p, []) := by
  intro ds
  induction ds with
  | nil =>
    intro p _ _
    rfl
  | cons d rest ih =>
    intro p hl hall
    have hd := hall d (by simp)
    have hsup : processDetection p d = (p, none) := by
      apply processDetection_suppressed p d t0
      · rw [hd.1, hd.2.1]
        exact hl
      · exact hd.2.2
    have hrest := ih p hl (fun x hx => hall x (List.mem_cons_of_mem _ hx))
    simp [processAll, hsup, hrest]

theorem processDetection_emit (p : Coordinator) (d : Detection)
    (hacc : (classify p.cfg d).accept = true)
    (hse : p.dedup.shouldEmit d.camera_id d.object_class d.captured_at = true) :
    processDetection p d =
      ({ p with store := (p.store.create (mkFields p d) d.captured_at).1,
                dedup := p.dedup.record d.camera_id d.object_class d.captured_at },
       some (p.store.create (mkFields p d) d.captured_at).2) := by
  simp [processDetection, hacc, hse]

theorem classify_accept_of_threshold (cfg : ClassifierConfig) (d : Detection)
    (h : cfg.minConfidence ≤ d.confidence) : (classify cfg d).accept = true := by
  simp [classify, not_lt.mpr h]

/-! ### C2: dedup window creates exactly one alert per cooldown -/

/-- C2: shouldEmit is true iff there is no prior record for the pair or
the cooldown has elapsed since the last emission; a sequence of
accepted detections on one (camera_id, object_class) pair that all
fall within one cooldown interval of the first emission creates
exactly one alert; and a second accepted detection arriving after the
cooldown has elapsed creates a second alert. -/
theorem dedup_exactly_one_alert :
    (∀ (w : DedupWindow) (cid : Nat) (cls : String) (now : Int),
        w.shouldEmit cid cls now = true ↔
          (w.lookup cid cls = none ∨
            ∃ t, w.lookup cid cls = some t ∧ w.cooldown ≤ now - t)) ∧
    (∀ (p : Coordinator) (d0 : Detection) (rest : List Detection),
        p.cfg.minConfidence ≤ d0.confidence →
        (∀ d ∈ rest, d.camera_id = d0.camera_id ∧ d.object_class = d0.object_class ∧
            p.cfg.minConfidence ≤ d.confidence ∧
            d.captured_at - d0.captured_at < p.dedup.cooldown) →
        p.dedup.shouldEmit d0.camera_id d0.object_class d0.captured_at = true →
        (processAll p (d0 :: rest)).2.length = 1) ∧
    (∀ (p : Coordinator) (d0 d1 : Detection),
        p.cfg.minConfidence ≤ d0.confidence →
        p.cfg.minConfidence ≤ d1.confidence →
        d1.camera_id = d0.camera_id →
        d1.object_class = d0.object_class →
        p.dedup.shouldEmit d0.camera_id d0.object_class d0.captured_at = true →
        p.dedup.cooldown ≤ d1.captured_at - d0.captured_at →
        (processAll p [d0, d1]).2.length = 2) := by
  refine ⟨?_, ?_, ?_⟩
  · intro w cid cls now
    unfold DedupWindow.shouldEmit
    cases hl : w.lookup cid cls with
    | none => simp
    | some t => simp [hl]
  · intro p d0 rest hc0 hrest hse
    have hacc := classify_accept_of_threshold p.cfg d0 hc0
    have hstep := processDetection_emit p d0 hacc hse
    have hlook : (processDetection p d0).1.dedup.lookup d0.camera_id d0.object_class =
        some d0.captured_at := by
      rw [hstep]
      exact lookup_record_self p.dedup d0.camera_id d0.object_class d0.captured_at
    have hcool : (processDetection p d0).1.dedup.cooldown = p.dedup.cooldown := by
      rw [hstep]
      exact record_cooldown p.dedup d0.camera_id d0.object_class d0.captured_at
    have hrest2 : ∀ d ∈ rest, d.camera_id = d0.camera_id ∧
        d.object_class = d0.object_class ∧
        d.captured_at - d0.captured_at < (processDetection p d0).1.dedup.cooldown := by
      intro d hd
      obtain ⟨h1, h2, _, h4⟩ := hrest d hd
      exact ⟨h1, h2, by rw [hcool]; exact h4⟩
    have hsup := processAll_suppressed d0.camera_id d0.object_class d0.captured_at rest
      (processDetection p d0).1 hlook hrest2
    simp only [processAll, hsup]
    rw [hstep]
    simp
  · intro p d0 d1 hc0 hc1 hcam hcls hse hgap
    have hacc0 := classify_accept_of_threshold p.cfg d0 hc0
    have hstep0 := processDetection_emit p d0 hacc0 hse
    have hlook : (processDetection p d0).1.dedup.lookup d0.camera_id d0.object_class =
        some d0.captured_at := by
      rw [hstep0]
      exact lookup_record_self p.dedup d0.camera_id d0.object_class d0.captured_at
    have hcool : (processDetection p d0).1.dedup.cooldown = p.dedup.cooldown := by
      rw [hstep0]
      exact record_cooldown p.dedup d0.camera_id d0.object_class d0.captured_at
    have hse1 : (processDetection p d0).1.dedup.shouldEmit d1.camera_id
        d1.object_class d1.captured_at = true := by
      rw [hcam, hcls]
      unfold DedupWindow.shouldEmit
      rw [hlook]
      simp only [decide_eq_true_eq]
      rw [hcool]
      exact hgap
    have hcfg : (processDetection p d0).1.cfg = p.cfg := by rw [hstep0]
    have hacc1 : (classify (processDetection p d0).1.cfg d1).accept = true := by
      rw [hcfg]
      exact classify_accept_of_threshold p.cfg d1 hc1
    have hstep1 := processDetection_emit (processDetection p d0).1 d1 hacc1 hse1
    simp only [processAll]
    rw [hstep1, hstep0]
    simp

/-- Concrete high-confidence detection used by the C2 witness. -/
def wDet0 : Detection :=
  { camera_id := 1, object_class := "gun", confidence := mkRat 95 100,
    captured_at := 100, frame_reference := "f0.jpg" }

/-- The same pair 5 seconds later (inside the 30 second cooldown). -/
def wDet1 : Detection :=
  { camera_id := 1, object_class := "gun", confidence := mkRat 9 10,
    captured_at := 105, frame_reference := "f1.jpg" }

/-- The same pair 40 seconds later (after the cooldown has elapsed). -/
def wDet2 : Detection :=
  { camera_id := 1, object_class := "gun", confidence := mkRat 9 10,
    captured_at := 140, frame_reference := "f2.jpg" }

/-- Witness for C2: on the concrete coordinator, two identical
detections 5 seconds apart with a 30 second cooldown yield one alert,
and the same pair 40 seconds apart yields two alerts. -/
theorem dedup_exactly_one_alert_witness :
    wCoord.dedup.shouldEmit 1 "gun" 100 = true ∧
    (processAll wCoord [wDet0, wDet1]).2.length = 1 ∧
    (processAll wCoord [wDet0, wDet2]).2.length = 2 := by
  refine ⟨(dedup_exactly_one_alert.1 wCoord.dedup 1 "gun" 100).mpr (Or.inl (by decide)),
    ?_, ?_⟩
  · exact dedup_exactly_one_alert.2.1 wCoord wDet0 [wDet1] (by decide) (by decide)
      (by decide)
  · exact dedup_exactly_one_alert.2.2 wCoord wDet0 wDet2 (by decide) (by decide)
      rfl rfl (by decide) (by decide)

/-! ### Alert Store reachability and the pending view -/

/-- Modelled from the spec: the mutating operations of the Alert Store
(§4.3): create and acknowledge.  Alerts are never deleted. -/
inductive StoreOp where
  | create (f : AlertFields) (now : Int)
  | ack (i : Nat) (admin_name : String) (now : Int)

/-- Modelled from the spec: applying one mutating store operation. -/
def applyOp (s : AlertStore) : StoreOp → AlertStore
  | StoreOp.create f now => (s.create f now).1
  | StoreOp.ack i admin_name now => (s.acknowledge i admin_name now).1

/-- Modelled from the spec: applying a sequence of store operations. -/
def applyOps (s : AlertStore) (ops : List StoreOp) : AlertStore :=
  List.foldl applyOp s ops

/-- A store state reachable from the empty store by create and
acknowledge operations. -/
def Reachable (s : AlertStore) : Prop :=
  ∃ ops : List StoreOp, applyOps emptyStore ops = s

/-- The ids of the stored alerts, in storage (creation) order. -/
def idList (s : AlertStore) : List Nat :=
  s.alerts.map (fun a => a.id)

/-- The id-ordering invariant of the store: ids are strictly increasing
in storage order and below the next id to be assigned. -/
def StoreInv (s : AlertStore) : Prop :=
  (idList s).Pairwise (fun m n => m < n) ∧ ∀ n ∈ idList s, n < s.nextId

theorem acknowledge_notFound (s : AlertStore) (i : Nat) (admin_name : String)
    (now : Int) (hf : s.find i = none) :
    s.acknowledge i admin_name now = (s, AckResult.notFound) := by
  simp [AlertStore.acknowledge, hf]

theorem acknowledge_idList (s : AlertStore) (i : Nat) (admin_name : String) (now : Int) :
    idList (s.acknowledge i admin_name now).1 = idList s ∧
    (s.acknowledge i admin_name now).1.nextId = s.nextId := by
  cases hf : s.find i with
  | none =>
    rw [acknowledge_notFound s i admin_name now hf]
    exact ⟨rfl, rfl⟩
  | some a =>
    cases hst : a.status with
    | ACKNOWLEDGED =>
      rw [acknowledge_done s i a admin_name now hf hst]
      exact ⟨rfl, rfl⟩
    | PENDING =>
      rw [acknowledge_pending s i a admin_name now hf hst]
      refine ⟨?_, rfl⟩
      have hid : a.id = i := find_of_find s i a hf
      unfold idList
      simp only [List.map_map]
      apply List.map_congr_left
      intro x _
      by_cases hx : x.id = i
      · simp [Function.comp, hx, ackUpdate, hid]
      · simp [Function.comp, hx]

theorem create_idList (s : AlertStore) (f : AlertFields) (now : Int) :
    idList (s.create f now).1 = idList s ++ [s.nextId] ∧
    (s.create f now).1.nextId = s.nextId + 1 := by
  constructor
  · unfold idList AlertStore.create
    simp
  · rfl

theorem storeInv_empty : StoreInv emptyStore := by
  constructor <;> simp [emptyStore, idList]

theorem storeInv_applyOp (s : AlertStore) (op : StoreOp) (h : StoreInv s) :
    StoreInv (applyOp s op) := by
  cases op with
  | create f now =>
    obtain ⟨hids, hnext⟩ := create_idList s f now
    obtain ⟨hpair, hlt⟩ := h
    show StoreInv (s.create f now).1
    unfold StoreInv
    rw [hids, hnext]
    constructor
    · rw [List.pairwise_append]
      refine ⟨hpair, by simp, ?_⟩
      intro m hm n hn
      simp only [List.mem_singleton] at hn
      rw [hn]
      exact hlt m hm
    · intro n hn
      rcases List.mem_append.mp hn with h1 | h2
      · exact Nat.lt_succ_of_lt (hlt n h1)
      · simp only [List.mem_singleton] at h2
        rw [h2]
        exact Nat.lt_succ_self _
  | ack i admin_name now =>
    obtain ⟨hids, hnext⟩ := acknowledge_idList s i admin_name now
    obtain ⟨hpair, hlt⟩ := h
    show StoreInv (s.acknowledge i admin_name now).1
    unfold StoreInv
    rw [hids, hnext]
    exact ⟨hpair, hlt⟩

theorem storeInv_applyOps (ops : List StoreOp) :
    ∀ s : AlertStore, StoreInv s → StoreInv (applyOps s ops) := by
  induction ops with
  | nil => intro s h; exact h
  | cons op rest ih =>
    intro s h
    exact ih (applyOp s op) (storeInv_applyOp s op h)

theorem storeInv_reachable (s : AlertStore) (h : Reachable s) : StoreInv s := by
  obtain ⟨ops, hops⟩ := h
  rw [← hops]
  exact storeInv_applyOps ops emptyStore storeInv_empty

/-! ### C4: listPending is exactly the pending alerts, newest first -/

/-- C4: in every reachable store state, listPending returns exactly the
alerts whose status is PENDING — it never includes an ACKNOWLEDGED
alert and never omits a committed PENDING alert — and the returned
sequence is newest first: since ids are assigned monotonically at
creation, the returned ids are strictly decreasing. -/
theorem listPending_exact (s : AlertStore) (h : Reachable s) :
    (∀ a : Alert, a ∈ s.listPending ↔ (a ∈ s.alerts ∧ a.status = Status.PENDING)) ∧
    (s.listPending.map (fun a => a.id)).Pairwise (fun m n => n < m) := by
  constructor
  · intro a
    simp [AlertStore.listPending, List.mem_reverse, List.mem_filter]
  · have hinv := storeInv_reachable s h
    have hpair : s.alerts.Pairwise (fun a b => a.id < b.id) := by
      have := hinv.1
      rw [idList, List.pairwise_map] at this
      exact this
    have hfilter : (s.alerts.filter
        (fun a => decide (a.status = Status.PENDING))).Pairwise
          (fun a b => a.id < b.id) :=
      hpair.sublist (List.filter_sublist s.alerts) |>.imp (fun hab => hab)
    rw [AlertStore.listPending, List.map_reverse, List.pairwise_reverse,
      List.pairwise_map]
    exact hfilter

/-- Operations building the concrete store of the C4 witness: two
created alerts, the first then acknowledged. -/
def wOps : List StoreOp :=
  [StoreOp.create wAckFields 1,
   StoreOp.create { wAckFields with object_class := "knife" } 2,
   StoreOp.ack 0 "Alice" 3]

/-- The concrete reachable store of the C4 witness. -/
def wReachStore : AlertStore := applyOps emptyStore wOps

/-- Witness for C4 at the concrete reachable store: its single pending
alert (id 1) is characterized by listPending, and the pending view's
ids are strictly decreasing. -/
theorem listPending_exact_witness :
    ((wReachStore.alerts.get ⟨1, by decide⟩) ∈ wReachStore.listPending ↔
      ((wReachStore.alerts.get ⟨1, by decide⟩) ∈ wReachStore.alerts ∧
        (wReachStore.alerts.get ⟨1, by decide⟩).status = Status.PENDING)) ∧
    (wReachStore.listPending.map (fun a => a.id)).Pairwise (fun m n => n < m) := by
  have h := listPending_exact wReachStore ⟨wOps, rfl⟩
  exact ⟨h.1 (wReachStore.alerts.get ⟨1, by decide⟩), h.2⟩

/-! ## Dashboard (embedded from src/Frontend/JS/dashboard.js) -/

/-- JavaScript String.prototype.trim: strip whitespace from both ends. -/
def jsTrim (s : String) : String :=
  String.mk (((s.data.dropWhile Char.isWhitespace).reverse.dropWhile
    Char.isWhitespace).reverse)

/-- A toast shown by showNotification (dashboard.js): message and
Bootstrap level (success / danger / warning / info). -/
structure Notification where
  message : String
  level : String
deriving DecidableEq

/-- The JSON body of POST /api/cameras built by addCamera
(dashboard.js lines 895-899). -/
structure CameraPostBody where
  name : String
  location : String
  rtsp_url : String
deriving DecidableEq

/-- The observable outcome of the addCamera form handler: either a
validation warning with no request issued, or a POST /api/cameras
with the given body. -/
inductive AddCameraAction where
  | warn (message : String)
  | post (body : CameraPostBody)
deriving DecidableEq

/-- addCamera (dashboard.js lines 868-928), up to the point the request
is issued: trims the form fields, rejects an empty name and then an
empty source with a warning toast before any fetch, forces the source
to "0" for a webcam, and otherwise POSTs the JSON body. -/
def addCamera (cameraName cameraLocation sourceType cameraRtsp : String) :
    AddCameraAction :=
  let name := jsTrim cameraName
  let location := jsTrim cameraLocation
  let rtspUrl := jsTrim cameraRtsp
  if name = "" then AddCameraAction.warn "Please enter camera name"
  else if sourceType = "webcam" then
    AddCameraAction.post { name := name, location := location, rtsp_url := "0" }
  else if rtspUrl = "" then AddCameraAction.warn "Please enter camera source"
  else AddCameraAction.post { name := name, location := location, rtsp_url := rtspUrl }

/-! ### C6: empty camera name is rejected before any request -/

/-- C6: submitting the add-camera form with a name that is empty (or
whitespace-only, so that it trims to empty) produces the validation
warning toast and no POST /api/cameras request is ever issued, for any
values of the other form fields. -/
theorem addCamera_empty_name_rejected (cameraName cameraLocation sourceType
    cameraRtsp : String) (h : jsTrim cameraName = "") :
    addCamera cameraName cameraLocation sourceType cameraRtsp =
        AddCameraAction.warn "Please enter camera name" ∧
    ∀ body : CameraPostBody,
      addCamera cameraName cameraLocation sourceType cameraRtsp ≠
        AddCameraAction.post body := by
  have hwarn : addCamera cameraName cameraLocation sourceType cameraRtsp =
      AddCameraAction.warn "Please enter camera name" := by
    simp [addCamera, h]
  refine ⟨hwarn, ?_⟩
  intro body
  rw [hwarn]
  simp

/-- Witness for C6 at a whitespace-only camera name. -/
theorem addCamera_empty_name_rejected_witness :
    jsTrim "   " = "" ∧
    addCamera "   " "Lobby" "rtsp" "rtsp://cam/stream" =
      AddCameraAction.warn "Please enter camera name" := by
  refine ⟨by decide, ?_⟩
  exact (addCamera_empty_name_rejected "   " "Lobby" "rtsp" "rtsp://cam/stream"
    (by decide)).1

/-! ## Camera views (embedded from src/unnamed part_001, camera-view.js) -/

/-- A camera record as consumed by the camera view layer. -/
structure Camera where
  id : Nat
  name : String
  location : String
  status : String
deriving DecidableEq

/-- CameraViewManager (camera-view.js): the insertion-ordered map from
camera id to its CameraView (modelled by the camera it displays) and
the grid container's child camera-card elements, by camera id. -/
structure CameraViewManager where
  cameraViews : List (Nat × Camera)
  grid : List Nat
deriving DecidableEq

/-- Whether a view for this camera id already exists
(cameraViews.has in camera-view.js line 383). -/
def CameraViewManager.hasView (m : CameraViewManager) (i : Nat) : Bool :=
  (m.cameraViews.find? (fun e => decide (e.1 = i))).isSome

/-- CameraViewManager.addCamera (camera-view.js lines 382-398): a
duplicate id is warned about and ignored; otherwise a view is created,
stored in the map and its card appended to the grid. -/
def CameraViewManager.addCamera (m : CameraViewManager) (c : Camera) :
    CameraViewManager :=
  if m.hasView c.id then m
  else { cameraViews := m.cameraViews ++ [(c.id, c)], grid := m.grid ++ [c.id] }

/-- CameraViewManager.removeCamera (camera-view.js lines 403-409): if a
view exists it is destroyed (its card leaves the grid) and deleted
from the map; otherwise nothing happens. -/
def CameraViewManager.removeCamera (m : CameraViewManager) (i : Nat) :
    CameraViewManager :=
  if m.hasView i then
    { cameraViews := m.cameraViews.filter (fun e => decide (e.1 ≠ i)),
      grid := m.grid.filter (fun n => decide (n ≠ i)) }
  else m

/-- CameraViewManager.clearAllCameras (camera-view.js lines 554-563):
every view is destroyed, the map is cleared and the grid emptied. -/
def CameraViewManager.clearAllCameras (_m : CameraViewManager) : CameraViewManager :=
  { cameraViews := [], grid := [] }

/-- The manager's grid matches its views: the grid holds exactly the
cards of the created views, in order. -/
def CameraViewManager.consistent (m : CameraViewManager) : Prop :=
  m.grid = m.cameraViews.map (fun e => e.1)

theorem filter_map_fst (l : List (Nat × Camera)) (i : Nat) :
    (l.map (fun e => e.1)).filter (fun n => decide (n ≠ i)) =
      (l.filter (fun e => decide (e.1 ≠ i))).map (fun e => e.1) := by
  induction l with
  | nil => rfl
  | cons e rest ih =>
    simp only [decide_not] at ih ⊢
    simp only [List.map_cons, List.filter_cons]
    by_cases he : e.1 = i
    · simp [he, ih]
    · simp [he, ih]

/-! ### C9: at most one view per camera id -/

/-- C9: adding a camera whose id already has a view leaves the manager
(map, grid and every existing view) completely unchanged, and
addCamera, removeCamera and clearAllCameras all keep the grid
consistent with the set of created views. -/
theorem manager_at_most_one_view (m : CameraViewManager) (c : Camera) (i : Nat)
    (hdup : m.hasView c.id = true) :
    m.addCamera c = m ∧
    (m.consistent →
      (m.addCamera c).consistent ∧ (m.removeCamera i).consistent ∧
        m.clearAllCameras.consistent) := by
  have hadd : m.addCamera c = m := by
    simp [CameraViewManager.addCamera, hdup]
  refine ⟨hadd, ?_⟩
  intro hcon
  refine ⟨by rw [hadd]; exact hcon, ?_, ?_⟩
  · unfold CameraViewManager.removeCamera
    by_cases hhas : m.hasView i
    · rw [if_pos hhas]
      show m.grid.filter (fun n => decide (n ≠ i)) =
        (m.cameraViews.filter (fun e => decide (e.1 ≠ i))).map (fun e => e.1)
      rw [hcon]
      exact filter_map_fst m.cameraViews i
    · rw [if_neg hhas]
      exact hcon
  · rfl

/-- Concrete manager of the C9 witness: one camera view, consistent. -/
def wManager : CameraViewManager :=
  { cameraViews := [(7, { id := 7, name := "Front Gate", location := "Lobby", status := "active" })],
    grid := [7] }

/-- The duplicate camera of the C9 witness. -/
def wDupCamera : Camera :=
  { id := 7, name := "Front Gate copy", location := "Hall", status := "inactive" }

/-- Witness for C9: adding a second camera with id 7 leaves the
concrete manager unchanged, and all three operations preserve
consistency there. -/
theorem manager_at_most_one_view_witness :
    wManager.hasView wDupCamera.id = true ∧
    wManager.addCamera wDupCamera = wManager ∧
    ((wManager.addCamera wDupCamera).consistent ∧
      (wManager.removeCamera 7).consistent ∧
      wManager.clearAllCameras.consistent) := by
  have h := manager_at_most_one_view wManager wDupCamera 7 (by decide)
  exact ⟨by decide, h.1, h.2 (by unfold CameraViewManager.consistent; rfl)⟩

/-! ### C10: refreshAllCameras always paints the connection error -/

/-- The Connection Error markup assigned to the camera grid by
refreshAllCameras (dashboard.js lines 970-979). -/
def connectionErrorHTML : String :=
  "<div class=\"no-cameras\"> <i class=\"bi bi-exclamation-triangle text-danger\"></i> <h5>Connection Error</h5> <p>Unable to connect to the server</p> <button class=\"btn btn-primary\" onclick=\"loadCameras()\"> <i class=\"bi bi-arrow-clockwise\"></i> Retry </button> </div>"

/-- The global refreshAllCameras function (dashboard.js lines 964-980):
when the manager exists it refreshes every camera view's stream and
shows an info toast, and it then unconditionally overwrites the camera
grid's innerHTML with the Connection Error markup.  Returns the ids of
the views whose streams were refreshed, the toasts shown, and the
grid's new innerHTML. -/
def refreshAllCamerasGlobal (mgr : Option CameraViewManager) (_gridHTML : String) :
    List Nat × List Notification × String :=
  match mgr with
  | some m =>
    (m.cameraViews.map (fun e => e.1),
     [{ message := "Refreshing all cameras...", level := "info" }],
     connectionErrorHTML)
  | none => ([], [], connectionErrorHTML)

/-- C10: every call to the global refreshAllCameras replaces the camera
grid's content with the Connection Error markup, for every manager
state and every previous grid content; when the manager exists, this
happens after the per-camera stream refreshes have been triggered. -/
theorem refreshAllCameras_always_error (mgr : Option CameraViewManager)
    (gridHTML : String) :
    (refreshAllCamerasGlobal mgr gridHTML).2.2 = connectionErrorHTML ∧
    ∀ m : CameraViewManager, mgr = some m →
      (refreshAllCamerasGlobal mgr gridHTML).1 = m.cameraViews.map (fun e => e.1) := by
  cases mgr with
  | none => exact ⟨rfl, by intro m hm; cases hm⟩
  | some m0 =>
    refine ⟨rfl, ?_⟩
    intro m hm
    cases hm
    rfl

/-- Witness for C10: with the concrete manager present and a grid
showing live cameras, the grid is nevertheless replaced by the
Connection Error markup and camera 7's stream was refreshed first. -/
theorem refreshAllCameras_always_error_witness :
    (refreshAllCamerasGlobal (some wManager) "<div>live</div>").2.2 =
        connectionErrorHTML ∧
    (refreshAllCamerasGlobal (some wManager) "<div>live</div>").1 =
        wManager.cameraViews.map (fun e => e.1) := by
  have h := refreshAllCameras_always_error (some wManager) "<div>live</div>"
  exact ⟨h.1, h.2 wManager rfl⟩

/-! ## Dashboard alert view (embedded from dashboard.js) -/

/-- An alert as held in the dashboard's global alerts array. -/
structure DashAlert where
  id : Nat
  camera_name : String
  object_class : String
  severity : String
deriving DecidableEq

/-- The dashboard's local alert state: the global alerts array and the
ids of the alert DOM elements currently rendered in the alerts list. -/
structure DashboardState where
  alerts : List DashAlert
  rendered : List Nat
deriving DecidableEq

/-- removeAlertFromUI (dashboard.js lines 488-505): if the DOM element
for the alert exists it is removed (after the fade-out) and the global
alerts array is filtered to drop every alert with that id; if the
element does not exist nothing happens. -/
def removeAlertFromUI (alertId : Nat) (st : DashboardState) : DashboardState :=
  if alertId ∈ st.rendered then
    { alerts := st.alerts.filter (fun a => decide (a.id ≠ alertId)),
      rendered := st.rendered.erase alertId }
  else st

/-- An HTTP request issued by the dashboard: path, whether it is a
POST, and the admin_name field of its JSON body if any. -/
structure HttpRequest where
  path : String
  isPost : Bool
  body_admin_name : Option String
deriving DecidableEq

/-- The acknowledge endpoint path for an alert id
(dashboard.js line 461). -/
def ackPath (alertId : Nat) : String :=
  "/api/alerts/" ++ toString alertId ++ "/acknowledge"

/-- The JSON response of POST /api/alerts/id/acknowledge. -/
structure AckResponse where
  success : Bool
  error : Option String
deriving DecidableEq

/-- JavaScript `x || fallback` on an optional string: the fallback is
used when the value is absent or the empty string (both falsy). -/
def jsOrDefault (e : Option String) (fallback : String) : String :=
  match e with
  | some s => if s = "" then fallback else s
  | none => fallback

/-- acknowledgeAlert (dashboard.js lines 459-483): one POST to the
acknowledge endpoint with body admin_name "Admin"; on success=true the
alert is removed from the UI and a success toast shown; on
success=false the response's error (or a fallback) is shown as a
danger toast and the local state is untouched. -/
def acknowledgeAlert (alertId : Nat) (resp : AckResponse) (st : DashboardState) :
    List HttpRequest × List Notification × DashboardState :=
  let req : HttpRequest :=
    { path := ackPath alertId, isPost := true, body_admin_name := some "Admin" }
  if resp.success then
    ([req], [{ message := "Alert acknowledged", level := "success" }],
     removeAlertFromUI alertId st)
  else
    ([req],
     [{ message := jsOrDefault resp.error "Failed to acknowledge alert", level := "danger" }],
     st)

/-! ### C7: the acknowledge request/response contract -/

/-- C7: acknowledgeAlert issues exactly one POST to
/api/alerts/id/acknowledge with JSON body admin_name "Admin"; on
success=true the alert (when rendered) is removed from the pending
view, and on success=false the response's (non-empty) error is
surfaced as a danger toast and the pending state is unchanged. -/
theorem acknowledgeAlert_contract (alertId : Nat) (resp : AckResponse)
    (st : DashboardState) :
    (acknowledgeAlert alertId resp st).1 =
        [{ path := ackPath alertId, isPost := true, body_admin_name := some "Admin" }] ∧
    (resp.success = true → alertId ∈ st.rendered →
      ∀ a ∈ (acknowledgeAlert alertId resp st).2.2.alerts, a.id ≠ alertId) ∧
    (resp.success = false →
      (acknowledgeAlert alertId resp st).2.2 = st ∧
      ∀ e : String, resp.error = some e → e ≠ "" →
        (acknowledgeAlert alertId resp st).2.1 = [{ message := e, level := "danger" }]) := by
  refine ⟨?_, ?_, ?_⟩
  · cases hs : resp.success <;> simp [acknowledgeAlert, hs]
  · intro hs hmem a ha
    simp only [acknowledgeAlert, hs, if_true] at ha
    simp only [removeAlertFromUI, hmem, if_true] at ha
    simp only [List.mem_filter, decide_eq_true_eq] at ha
    exact ha.2
  · intro hs
    constructor
    · simp [acknowledgeAlert, hs]
    · intro e he hne
      simp [acknowledgeAlert, hs, jsOrDefault, he, hne]

/-- Concrete dashboard state of the C7 and C8 witnesses: two pending
alerts, both rendered. -/
def wDash : DashboardState :=
  { alerts :=
      [{ id := 3, camera_name := "Front Gate", object_class := "knife", severity := "HIGH" },
       { id := 5, camera_name := "Back Door", object_class := "gun", severity := "HIGH" }],
    rendered := [3, 5] }

/-- Witness for C7: acknowledging alert 3 of the concrete state issues
the single POST; on success the surviving alert 5 has a different id;
on failure with error "boom" the state is unchanged and "boom" is
surfaced. -/
theorem acknowledgeAlert_contract_witness :
    (acknowledgeAlert 3 { success := true, error := none } wDash).1 =
        [{ path := ackPath 3, isPost := true, body_admin_name := some "Admin" }] ∧
    ({ id := 5, camera_name := "Back Door", object_class := "gun", severity := "HIGH" } :
        DashAlert).id ≠ 3 ∧
    (acknowledgeAlert 3 { success := false, error := some "boom" } wDash).2.2 = wDash ∧
    (acknowledgeAlert 3 { success := false, error := some "boom" } wDash).2.1 =
        [{ message := "boom", level := "danger" }] := by
  have hT := acknowledgeAlert_contract 3 { success := true, error := none } wDash
  have hF := acknowledgeAlert_contract 3 { success := false, error := some "boom" } wDash
  refine ⟨hT.1, ?_, (hF.2.2 rfl).1, (hF.2.2 rfl).2 "boom" rfl (by decide)⟩
  exact hT.2.1 rfl (by decide) _ (by decide)

/-! ### C8: the alert_acknowledged push handler -/

/-- The socket handler for the alert_acknowledged event
(dashboard.js lines 98-101): it only calls removeAlertFromUI with the
payload's alert_id; it issues no HTTP request. -/
def onAlertAcknowledged (alert_id : Nat) (st : DashboardState) :
    List HttpRequest × DashboardState :=
  ([], removeAlertFromUI alert_id st)

/-- C8: on an alert_acknowledged push event for a rendered alert, the
dashboard removes exactly the alert with that id — afterwards the
local alerts list contains no alert with that id and every other alert
is preserved — and no new poll of /api/alerts is issued. -/
theorem push_ack_removes_without_poll (alert_id : Nat) (st : DashboardState)
    (hmem : alert_id ∈ st.rendered) :
    (onAlertAcknowledged alert_id st).1 = [] ∧
    (onAlertAcknowledged alert_id st).2.alerts =
        st.alerts.filter (fun a => decide (a.id ≠ alert_id)) ∧
    (∀ a ∈ (onAlertAcknowledged alert_id st).2.alerts, a.id ≠ alert_id) ∧
    ∀ a ∈ st.alerts, a.id ≠ alert_id →
      a ∈ (onAlertAcknowledged alert_id st).2.alerts := by
  have hfilt : (onAlertAcknowledged alert_id st).2.alerts =
      st.alerts.filter (fun a => decide (a.id ≠ alert_id)) := by
    show (removeAlertFromUI alert_id st).alerts = _
    unfold removeAlertFromUI
    rw [if_pos hmem]
  refine ⟨rfl, hfilt, ?_, ?_⟩
  · intro a ha
    rw [hfilt] at ha
    simp only [List.mem_filter, decide_eq_true_eq] at ha
    exact ha.2
  · intro a ha hne
    rw [hfilt]
    simp only [List.mem_filter, decide_eq_true_eq]
    exact ⟨ha, hne⟩

/-- Witness for C8: the push event for alert 3 on the concrete state
removes exactly alert 3 and issues no request. -/
theorem push_ack_removes_without_poll_witness :
    3 ∈ wDash.rendered ∧
    (onAlertAcknowledged 3 wDash).1 = [] ∧
    (onAlertAcknowledged 3 wDash).2.alerts =
        wDash.alerts.filter (fun a => decide (a.id ≠ 3)) := by
  have h := push_ack_removes_without_poll 3 wDash (by decide)
  exact ⟨by decide, h.1, h.2.1⟩

end SmartSurveillance
